import Mathlib

/-!
Verification of the RSVP logic of the events-frontend repository.

The definitions below are a shallow embedding of the JavaScript in
`src/pages/EventPage.jsx` (and its helpers).  JavaScript strings are
modelled as Lean `String`, objects with a fixed field set as structures,
absent / `null` / `undefined` values as `Option`, and JavaScript
truthiness of a string as the test against `""`.  The whitespace class
`\s` of JavaScript regexes and of `String.prototype.trim` is modelled by
`Char.isWhitespace`; the identifiers appearing in this app are plain
ASCII, where the two notions agree.
-/

namespace EventsFrontend

/-- JavaScript lexicographic comparison `a < b` on the character sequences
of two strings (code-unit order; the strings this app compares are ASCII,
where code-unit order and code-point order agree). -/
def jsLtChars : List Char → List Char → Bool
  | [], [] => false
  | [], _ :: _ => true
  | _ :: _, [] => false
  | a :: as, b :: bs =>
    if a.val < b.val then true
    else if b.val < a.val then false
    else jsLtChars as bs

/-- JavaScript string comparison `a > b`. -/
def jsStrGt (a b : String) : Bool := jsLtChars b.data a.data

/-- The regex `^(\d{4})-(\d{2})-(\d{2})$` used by `isAfterDeadlineSGT`:
exactly four digits, a hyphen, two digits, a hyphen, two digits. -/
def matchesYYYYMMDD (s : String) : Bool :=
  match s.data with
  | [y1, y2, y3, y4, h1, m1, m2, h2, d1, d2] =>
    y1.isDigit && y2.isDigit && y3.isDigit && y4.isDigit &&
    h1 == '-' && m1.isDigit && m2.isDigit && h2 == '-' &&
    d1.isDigit && d2.isDigit
  | _ => false

/-- Shallow embedding of `isAfterDeadlineSGT` from `src/pages/EventPage.jsx`
(lines 38-54).  The current date in the Asia/Singapore timezone, which the
source obtains from `Intl.DateTimeFormat("en-CA", ...).format(new Date())`
as a `"YYYY-MM-DD"` string, is passed in as the parameter `todaySGT`.
`rsvpDeadline = none` models an absent (`undefined`/`null`) deadline;
`some ""` is the other falsy string the JavaScript guard
`if (!rsvpDeadlineYYYYMMDD) return false` catches. -/
def isAfterDeadlineSGT (todaySGT : String) (rsvpDeadline : Option String) : Bool :=
  match rsvpDeadline with
  | none => false
  | some s =>
    if s = "" then false
    else if matchesYYYYMMDD s then jsStrGt todaySGT s
    else false

/-- Claim-side definition of the deadline gate, written from the spec's
words: closed exactly when the deadline is present, matches the
`YYYY-MM-DD` shape, and today's SGT date string is strictly greater;
absent or malformed deadline is never closed. -/
def closedGateSpec (todaySGT : String) (rsvpDeadline : Option String) : Bool :=
  match rsvpDeadline with
  | none => false
  | some s => matchesYYYYMMDD s && jsStrGt todaySGT s

/-- Claim C1: RSVP submission is closed iff today's SGT date string is
strictly greater than the event's `rsvp_deadline` string; the gate stays
open through the whole deadline day (string equality is not "greater"),
and an absent or malformed deadline never closes the gate. -/
theorem deadline_gate_matches_spec (todaySGT : String) (rsvpDeadline : Option String) :
    isAfterDeadlineSGT todaySGT rsvpDeadline = closedGateSpec todaySGT rsvpDeadline := by
  cases rsvpDeadline with
  | none => rfl
  | some s =>
    simp only [isAfterDeadlineSGT, closedGateSpec]
    by_cases hs : s = ""
    · subst hs
      have hm : matchesYYYYMMDD "" = false := rfl
      simp [hm]
    · rw [if_neg hs]
      cases hm : matchesYYYYMMDD s with
      | false => simp [hm]
      | true => simp [hm]

/-- `String.prototype.trim`: leading and trailing whitespace removed. -/
def jsTrim (s : String) : String :=
  String.mk (((s.data.dropWhile Char.isWhitespace).reverse.dropWhile Char.isWhitespace).reverse)

/-- A character matched by `[^\s@]`: neither whitespace nor `@`. -/
def isEmailChar (c : Char) : Bool := !c.isWhitespace && c != '@'

/-- Shallow embedding of `isValidEmail` from `src/pages/EventPage.jsx`
(lines 6-8): the regex `/^[^\s@]+@[^\s@]+\.[^\s@]+$/` tested against the
trimmed string.  The regex forces exactly one `@` (both character classes
exclude it), so we split at the first `@`; the part after it must match
`[^\s@]+\.[^\s@]+`, i.e. contain a literal `.` that is neither its first
nor its last character, with every character non-whitespace and non-`@`. -/
def isValidEmail (email : String) : Bool :=
  let cs := (jsTrim email).data
  let l := cs.takeWhile (fun c => c != '@')
  match cs.drop l.length with
  | '@' :: d =>
    !l.isEmpty && l.all isEmailChar && d.all isEmailChar &&
    ((d.drop 1).dropLast.contains '.')
  | _ => false

/-- The RSVP form state held by `EventPage` (the `form` `useState`, lines
114-123).  Every text input holds a string; `allow_public_share` is the
checkbox boolean; `session_id` is the `<select>` value, a numeric string
or `""` for "no specific session". -/
structure FormState where
  attendance_status : String
  name : String
  email : String
  phone : String
  session_id : String
  remarks : String
  invite_code : String
  allow_public_share : Bool
deriving DecidableEq

/-- The initial form state (lines 114-123). -/
def initialForm : FormState :=
  { attendance_status := "attending", name := "", email := "", phone := ""
    session_id := "", remarks := "", invite_code := "", allow_public_share := false }

/-- The keys the validator can place in its error object. -/
inductive FieldKey
  | attendance_status
  | name
  | email
  | phone
  | remarks
  | invite_code
deriving DecidableEq

/-- The `attendance_status` checks of the `fieldErrors` memo (lines
393-396): required, and must be one of `attending`/`declined`. -/
def attendanceErr (a : String) : Option String :=
  if a = "" then some "Please select attendance"
  else if a = "attending" ∨ a = "declined" then none
  else some "Invalid attendance option"

/-- The `name` check of the `fieldErrors` memo (line 398). -/
def nameErr (n : String) : Option String :=
  if jsTrim n = "" then some "Name is required" else none

/-- The `email` check of the `fieldErrors` memo (lines 400-401). -/
def emailErr (e : String) : Option String :=
  if jsTrim e ≠ "" ∧ isValidEmail (jsTrim e) = false then
    some "Email format looks wrong"
  else none

/-- The `phone` length check of the `fieldErrors` memo (line 403). -/
def phoneErr (p : String) : Option String :=
  if p.data.length > 50 then some "Phone is too long" else none

/-- The `remarks` length check of the `fieldErrors` memo (line 404). -/
def remarksErr (r : String) : Option String :=
  if r.data.length > 1000 then some "Remarks is too long" else none

/-- The `invite_code` length check of the `fieldErrors` memo (line 405). -/
def inviteCodeErr (i : String) : Option String :=
  if i.data.length > 50 then some "Invite code is too long" else none

/-- A present error becomes one entry of the error object. -/
def entryList (k : FieldKey) : Option String → List (FieldKey × String)
  | some m => [(k, m)]
  | none => []

/-- Shallow embedding of the `fieldErrors` memo from `src/pages/EventPage.jsx`
(lines 390-408), as the association list of the error object's entries in
insertion order. -/
def fieldErrors (form : FormState) : List (FieldKey × String) :=
  entryList FieldKey.attendance_status (attendanceErr form.attendance_status) ++
  entryList FieldKey.name (nameErr form.name) ++
  entryList FieldKey.email (emailErr form.email) ++
  entryList FieldKey.phone (phoneErr form.phone) ++
  entryList FieldKey.remarks (remarksErr form.remarks) ++
  entryList FieldKey.invite_code (inviteCodeErr form.invite_code)

/-- Whether the validator's error object has an entry for a given field. -/
def hasFieldError (k : FieldKey) (form : FormState) : Bool :=
  (fieldErrors form).any (fun p => decide (p.1 = k))

lemma any_entryList (k k2 : FieldKey) (o : Option String) :
    ((entryList k o).any fun p => decide (p.1 = k2)) = (o.isSome && decide (k = k2)) := by
  cases o <;> simp [entryList]

lemma entryList_eq_nil (k : FieldKey) (o : Option String) :
    entryList k o = [] ↔ o = none := by
  cases o <;> simp [entryList]

lemma attendanceErr_isSome (a : String) :
    (attendanceErr a).isSome =
      !(decide (a = "attending") || decide (a = "declined")) := by
  by_cases h : a = ""
  · subst h; rfl
  · unfold attendanceErr
    rw [if_neg h]
    by_cases h2 : a = "attending" ∨ a = "declined"
    · rw [if_pos h2]
      rcases h2 with h2 | h2 <;> simp [h2]
    · rw [if_neg h2]
      push_neg at h2
      simp [h2.1, h2.2]

lemma nameErr_isSome (n : String) :
    (nameErr n).isSome = decide (jsTrim n = "") := by
  unfold nameErr; split_ifs <;> simp_all

lemma emailErr_isSome (e : String) :
    (emailErr e).isSome =
      (decide (jsTrim e ≠ "") && !isValidEmail (jsTrim e)) := by
  unfold emailErr
  split_ifs with h
  · simp [h.1, h.2]
  · rw [not_and_or] at h
    rcases h with h | h
    · simp [Decidable.not_not.mp h]
    · have hb : isValidEmail (jsTrim e) = true := by
        cases hv : isValidEmail (jsTrim e)
        · exact absurd hv h
        · rfl
      simp [hb]

lemma phoneErr_isSome (p : String) :
    (phoneErr p).isSome = decide (p.data.length > 50) := by
  unfold phoneErr; split_ifs <;> simp_all

lemma remarksErr_isSome (r : String) :
    (remarksErr r).isSome = decide (r.data.length > 1000) := by
  unfold remarksErr; split_ifs <;> simp_all

lemma inviteCodeErr_isSome (i : String) :
    (inviteCodeErr i).isSome = decide (i.data.length > 50) := by
  unfold inviteCodeErr; split_ifs <;> simp_all

lemma hasFieldError_eq (form : FormState) (k : FieldKey) :
    hasFieldError k form =
      ((attendanceErr form.attendance_status).isSome &&
         decide (FieldKey.attendance_status = k) ||
       (nameErr form.name).isSome && decide (FieldKey.name = k) ||
       (emailErr form.email).isSome && decide (FieldKey.email = k) ||
       (phoneErr form.phone).isSome && decide (FieldKey.phone = k) ||
       (remarksErr form.remarks).isSome && decide (FieldKey.remarks = k) ||
       (inviteCodeErr form.invite_code).isSome &&
         decide (FieldKey.invite_code = k)) := by
  simp only [hasFieldError, fieldErrors, List.any_append, any_entryList, Bool.or_assoc]

/-- Claim C2: the validator flags `name` exactly when it trims to empty,
`email` exactly when non-empty after trimming and not email-shaped,
`phone`/`remarks`/`invite_code` exactly when they exceed 50/1000/50
characters, `attendance_status` exactly when absent or not one of
`attending`/`declined`; and the error object is empty exactly when none
of these conditions holds (in particular for a form whose required fields
are valid and whose optional fields are empty). -/
theorem validator_characterization (form : FormState) :
    hasFieldError FieldKey.name form = decide (jsTrim form.name = "") ∧
    hasFieldError FieldKey.email form =
      (decide (jsTrim form.email ≠ "") && !isValidEmail (jsTrim form.email)) ∧
    hasFieldError FieldKey.phone form = decide (form.phone.data.length > 50) ∧
    hasFieldError FieldKey.remarks form = decide (form.remarks.data.length > 1000) ∧
    hasFieldError FieldKey.invite_code form = decide (form.invite_code.data.length > 50) ∧
    hasFieldError FieldKey.attendance_status form =
      !(decide (form.attendance_status = "attending") ||
        decide (form.attendance_status = "declined")) ∧
    (fieldErrors form = [] ↔
      ((form.attendance_status = "attending" ∨ form.attendance_status = "declined") ∧
       jsTrim form.name ≠ "" ∧
       (jsTrim form.email = "" ∨ isValidEmail (jsTrim form.email) = true) ∧
       form.phone.data.length ≤ 50 ∧
       form.remarks.data.length ≤ 1000 ∧
       form.invite_code.data.length ≤ 50)) := by
  refine ⟨?_, ?_, ?_, ?_, ?_, ?_, ?_⟩
  · rw [hasFieldError_eq]
    simp [nameErr_isSome]
  · rw [hasFieldError_eq]
    simp [emailErr_isSome]
  · rw [hasFieldError_eq]
    simp [phoneErr_isSome]
  · rw [hasFieldError_eq]
    simp [remarksErr_isSome]
  · rw [hasFieldError_eq]
    simp [inviteCodeErr_isSome]
  · rw [hasFieldError_eq]
    simp [attendanceErr_isSome]
  · simp only [fieldErrors, List.append_eq_nil, entryList_eq_nil,
      ← Option.not_isSome_iff_eq_none, attendanceErr_isSome, nameErr_isSome,
      emailErr_isSome, phoneErr_isSome, remarksErr_isSome, inviteCodeErr_isSome]
    simp [not_lt, and_assoc, or_iff_not_imp_left]

/-- A JavaScript number as produced by `Number(...)` on the strings this
app feeds it: either a (signed) integer or `NaN`.  Session ids are server
integers rendered back and forth with `String(...)`, so the fractional,
hexadecimal and exponent syntaxes of `Number` do not occur here and are
mapped to `nan`. -/
inductive JSNum
  | nan
  | num (n : Int)
deriving DecidableEq

/-- The numeric value of a list of decimal digit characters. -/
def digitsToNat (ds : List Char) : Nat :=
  ds.foldl (fun acc c => acc * 10 + (c.toNat - '0'.toNat)) 0

/-- `Number(s)` on the decimal-integer fragment: the trimmed string is
empty (`Number("") = 0`, `Number("  ") = 0`), an optionally signed run of
decimal digits, or otherwise `NaN` in this model. -/
def jsNumber (s : String) : JSNum :=
  match (jsTrim s).data with
  | [] => JSNum.num 0
  | '+' :: ds =>
    if ds ≠ [] ∧ ds.all Char.isDigit then JSNum.num (Int.ofNat (digitsToNat ds))
    else JSNum.nan
  | '-' :: ds =>
    if ds ≠ [] ∧ ds.all Char.isDigit then JSNum.num (-(Int.ofNat (digitsToNat ds)))
    else JSNum.nan
  | ds =>
    if ds.all Char.isDigit then JSNum.num (Int.ofNat (digitsToNat ds))
    else JSNum.nan

/-- The wire payload object built by `buildPayload`:
`session_id = none` / `allow_public_share = none` model the key being
absent from the object, `email = none` (etc.) model the key being present
with value `null`. -/
structure Payload where
  attendance_status : String
  name : String
  email : Option String
  phone : Option String
  remarks : Option String
  invite_code : Option String
  session_id : Option JSNum
  allow_public_share : Option Bool
deriving DecidableEq

/-- The `String(x || "").trim() || null` idiom of `buildPayload`: trim,
and an empty result becomes `null`. -/
def trimOrNull (s : String) : Option String :=
  if jsTrim s = "" then none else some (jsTrim s)

/-- Shallow embedding of `buildPayload` from `src/pages/EventPage.jsx`
(lines 421-440). -/
def buildPayload (form : FormState) : Payload :=
  let payload : Payload :=
    { attendance_status := form.attendance_status
      name := jsTrim form.name
      email := trimOrNull form.email
      phone := trimOrNull form.phone
      remarks := trimOrNull form.remarks
      invite_code := trimOrNull form.invite_code
      session_id := none
      allow_public_share := none }
  let payload :=
    if form.attendance_status ≠ "declined" ∧ form.session_id ≠ "" then
      { payload with session_id := some (jsNumber form.session_id) }
    else payload
  if form.attendance_status = "declined" then
    { payload with allow_public_share := some form.allow_public_share }
  else payload

lemma trimOrNull_ne_some_empty (s : String) : trimOrNull s ≠ some "" := by
  unfold trimOrNull
  split_ifs with h <;> simp [h]

/-- Claim C3: the payload always carries `attendance_status` and the
trimmed `name`; each of `email`/`phone`/`remarks`/`invite_code` is
trimmed with empty-after-trim becoming `null` and is never the empty
string; the numeric `session_id` key (the `Number` of the selected
string, so `"3"` becomes `3`) is present exactly when the attendance is
not `"declined"` and a session is selected; and the boolean
`allow_public_share` key is present exactly when the attendance is
`"declined"`. -/
theorem payload_builder_spec (form : FormState) :
    (buildPayload form).attendance_status = form.attendance_status ∧
    (buildPayload form).name = jsTrim form.name ∧
    (buildPayload form).email =
      (if jsTrim form.email = "" then none else some (jsTrim form.email)) ∧
    (buildPayload form).phone =
      (if jsTrim form.phone = "" then none else some (jsTrim form.phone)) ∧
    (buildPayload form).remarks =
      (if jsTrim form.remarks = "" then none else some (jsTrim form.remarks)) ∧
    (buildPayload form).invite_code =
      (if jsTrim form.invite_code = "" then none else some (jsTrim form.invite_code)) ∧
    (buildPayload form).email ≠ some "" ∧
    (buildPayload form).phone ≠ some "" ∧
    (buildPayload form).remarks ≠ some "" ∧
    (buildPayload form).invite_code ≠ some "" ∧
    (buildPayload form).session_id =
      (if form.attendance_status ≠ "declined" ∧ form.session_id ≠ "" then
        some (jsNumber form.session_id)
       else none) ∧
    (buildPayload form).allow_public_share =
      (if form.attendance_status = "declined" then some form.allow_public_share
       else none) ∧
    jsNumber "3" = JSNum.num 3 := by
  have h3 : jsNumber "3" = JSNum.num 3 := by decide
  unfold buildPayload
  split_ifs with h1 h2 h2 <;>
    simp_all [trimOrNull, trimOrNull_ne_some_empty, h3]

/-- The single query parameter a lookup request can carry. -/
inductive LookupParam
  | email
  | phone
  | invite_code
deriving DecidableEq

/-- What `onLookupRsvp` does with an input before any network traffic:
either it short-circuits with the prompt message and issues no request,
or it issues one request carrying exactly one query parameter. -/
inductive LookupAction
  | prompt
  | request (param : LookupParam) (value : String)
deriving DecidableEq

/-- A character of the class `[\d\s-]`. -/
def phoneChar (c : Char) : Bool := c.isDigit || c.isWhitespace || c == '-'

/-- The regex `/^\+?\d[\d\s-]{6,}$/` from `onLookupRsvp` (line 507): an
optional leading `+`, a digit, then at least six more characters drawn
from digits, whitespace and hyphens. -/
def loosePhonePattern (cs : List Char) : Bool :=
  match cs with
  | '+' :: c :: rest => c.isDigit && rest.all phoneChar && decide (6 ≤ rest.length)
  | c :: rest => c.isDigit && rest.all phoneChar && decide (6 ≤ rest.length)
  | [] => false

/-- The phone pattern as the claim words it: an optional leading `+`, a
digit, then at least SEVEN more digits/spaces/hyphens. -/
def claimPhonePattern (cs : List Char) : Bool :=
  match cs with
  | '+' :: c :: rest => c.isDigit && rest.all phoneChar && decide (7 ≤ rest.length)
  | c :: rest => c.isDigit && rest.all phoneChar && decide (7 ≤ rest.length)
  | [] => false

/-- `key.replace(/\s+/g, "")`: every whitespace character removed. -/
def stripWhitespace (s : String) : String :=
  String.mk (s.data.filter (fun c => !c.isWhitespace))

/-- Shallow embedding of the classification part of `onLookupRsvp` from
`src/pages/EventPage.jsx` (lines 491-510): trim the free-text key; empty
means prompt-and-no-request; a key containing `@` is sent as `email`; a
key matching the loose phone regex is sent as `phone` with whitespace
stripped; anything else is sent as `invite_code`. -/
def classifyLookup (lookupKey : String) : LookupAction :=
  let key := jsTrim lookupKey
  if key = "" then LookupAction.prompt
  else if key.data.contains '@' then LookupAction.request LookupParam.email key
  else if loosePhonePattern key.data then
    LookupAction.request LookupParam.phone (stripWhitespace key)
  else LookupAction.request LookupParam.invite_code key

/-- The classifier as the claim words it, differing from the source only
in requiring seven (not six) characters after the leading digit of the
phone pattern. -/
def claimClassify (lookupKey : String) : LookupAction :=
  let key := jsTrim lookupKey
  if key = "" then LookupAction.prompt
  else if key.data.contains '@' then LookupAction.request LookupParam.email key
  else if claimPhonePattern key.data then
    LookupAction.request LookupParam.phone (stripWhitespace key)
  else LookupAction.request LookupParam.invite_code key

/-- Counterexample to claim C4: the seven-digit input `"1234567"` (a
digit followed by six more) matches the code's `{6,}` phone regex and is
sent as the `phone` parameter, while the claim's "at least 7 more
digits/spaces/hyphens" pattern rejects it and would classify it as an
invite code. -/
theorem lookup_seven_digit_counterexample :
    classifyLookup "1234567" = LookupAction.request LookupParam.phone "1234567" ∧
    claimClassify "1234567" = LookupAction.request LookupParam.invite_code "1234567" ∧
    claimPhonePattern ("1234567").data = false ∧
    loosePhonePattern ("1234567").data = true := by
  decide

/-- Claim C4 as amended: the only change is that the loose phone pattern
requires at least 6 (not 7) further digits/spaces/hyphens after the
leading digit.  Empty or whitespace-only input prompts and issues no
request; otherwise a key containing `@` is sent as `email`, else a key
matching the phone pattern is sent as `phone` with whitespace stripped,
else the key is sent as `invite_code`; a request always carries exactly
one parameter (`LookupAction.request` holds a single parameter). -/
theorem lookup_classification_amended (lookupKey : String) :
    (classifyLookup lookupKey = LookupAction.prompt ↔ jsTrim lookupKey = "") ∧
    ((jsTrim lookupKey ≠ "" ∧ (jsTrim lookupKey).data.contains '@' = true) →
      classifyLookup lookupKey =
        LookupAction.request LookupParam.email (jsTrim lookupKey)) ∧
    ((jsTrim lookupKey ≠ "" ∧ (jsTrim lookupKey).data.contains '@' = false ∧
        loosePhonePattern (jsTrim lookupKey).data = true) →
      classifyLookup lookupKey =
        LookupAction.request LookupParam.phone (stripWhitespace (jsTrim lookupKey))) ∧
    ((jsTrim lookupKey ≠ "" ∧ (jsTrim lookupKey).data.contains '@' = false ∧
        loosePhonePattern (jsTrim lookupKey).data = false) →
      classifyLookup lookupKey =
        LookupAction.request LookupParam.invite_code (jsTrim lookupKey)) := by
  unfold classifyLookup
  simp only []
  split_ifs with h1 h2 h3 <;> simp_all

/-- The value under one key of a Laravel-style `errors` map: an array of
message strings, a bare string, or anything else. -/
inductive ErrVal
  | arr (ss : List String)
  | str (s : String)
  | other
deriving DecidableEq

/-- Shallow embedding of `firstLaravelError` from `src/pages/EventPage.jsx`
(lines 10-17).  The argument is the (ordered) entry list of the `errors`
object; `none` models the guard `!errors || typeof errors !== "object"`
(absent, `null` or non-object).  An empty object has no first key, and
`errors[undefined]` is `undefined`, so the result is `""`; an array whose
first element is falsy (absent or `""`) falls through to `""`; a bare
string value is returned as is. -/
def firstLaravelError (errors : Option (List (String × ErrVal))) : String :=
  match errors with
  | none => ""
  | some [] => ""
  | some ((_, v) :: _) =>
    match v with
    | ErrVal.arr [] => ""
    | ErrVal.arr (s :: _) => if s ≠ "" then s else ""
    | ErrVal.str s => s
    | ErrVal.other => ""

/-- The parsed body of a non-2xx submit response, as `onSubmitRSVP` reads
it (lines 459-460): a JSON object (its optional `message` string and
optional `errors` map), a string (a text body, or a JSON string body), or
any other JSON value (`null`, number, boolean, array). -/
inductive SubmitBody
  | obj (message : Option String) (errors : Option (List (String × ErrVal)))
  | str (s : String)
  | other
deriving DecidableEq

/-- The generic fallback `` `Submit failed (${res.status})` ``. -/
def submitFailMessage (status : Nat) : String :=
  "Submit failed (" ++ toString status ++ ")"

/-- Shallow embedding of the error-message extraction of `onSubmitRSVP`
(lines 462-467):
`(data && typeof data === "object" && (data.message || firstLaravelError(data.errors)))
 || (typeof data === "string" && data) || fallback`. -/
def extractSubmitError (body : SubmitBody) (status : Nat) : String :=
  match body with
  | SubmitBody.obj message errors =>
    let m :=
      match message with
      | some m => if m ≠ "" then m else firstLaravelError errors
      | none => firstLaravelError errors
    if m ≠ "" then m else submitFailMessage status
  | SubmitBody.str s => if s ≠ "" then s else submitFailMessage status
  | SubmitBody.other => submitFailMessage status

/-- The extraction in the claim's priority order: structured field error
first, then the `message` field, then the raw text body, then the
fallback. -/
def claimPriorityMessage (body : SubmitBody) (status : Nat) : String :=
  match body with
  | SubmitBody.obj message errors =>
    if firstLaravelError errors ≠ "" then firstLaravelError errors
    else
      match message with
      | some m => if m ≠ "" then m else submitFailMessage status
      | none => submitFailMessage status
  | SubmitBody.str s => if s ≠ "" then s else submitFailMessage status
  | SubmitBody.other => submitFailMessage status

/-- Counterexample to claim C5: on a rejection body carrying both a
`message` field and a structured `errors` map, the code surfaces the
`message` field (`data.message || firstLaravelError(data.errors)`), not
the first field error the claim gives priority to. -/
theorem submit_error_priority_counterexample :
    extractSubmitError
        (SubmitBody.obj (some "The given data was invalid.")
          (some [("name", ErrVal.arr ["Name is required."])])) 422 =
      "The given data was invalid." ∧
    claimPriorityMessage
        (SubmitBody.obj (some "The given data was invalid.")
          (some [("name", ErrVal.arr ["Name is required."])])) 422 =
      "Name is required." ∧
    ("The given data was invalid." : String) ≠ "Name is required." := by
  decide

/-- Claim C5 as amended: for a non-2xx submit response the extraction
priority is the plain `message` field first, then the first error string
of the first offending field of the structured `errors` map, then the raw
text body, then the generic fallback carrying the HTTP status code. -/
theorem submit_error_priority_amended
    (message : Option String) (errors : Option (List (String × ErrVal)))
    (s : String) (status : Nat) :
    extractSubmitError (SubmitBody.obj message errors) status =
      (if message.getD "" ≠ "" then message.getD ""
       else if firstLaravelError errors ≠ "" then firstLaravelError errors
       else submitFailMessage status) ∧
    extractSubmitError (SubmitBody.str s) status =
      (if s ≠ "" then s else submitFailMessage status) ∧
    extractSubmitError SubmitBody.other status = submitFailMessage status := by
  refine ⟨?_, rfl, rfl⟩
  cases message with
  | none => simp [extractSubmitError]
  | some m =>
    by_cases hm : m = ""
    · subst hm; simp [extractSubmitError]
    · simp [extractSubmitError, hm]

/-- The slice of `EventPage` state the submit flow reads and writes: the
form plus the `submitting`, `submitOk` and `submitErr` `useState` pairs
(lines 125-127).  The message strings are `""` when no message is shown. -/
structure SubmitState where
  form : FormState
  submitting : Bool
  submitOk : String
  submitErr : String
deriving DecidableEq

/-- `canSubmit` from `src/pages/EventPage.jsx` (line 410):
no validation errors, not currently submitting, not deadline-closed. -/
def canSubmit (st : SubmitState) (isRsvpClosed : Bool) : Bool :=
  (fieldErrors st.form).isEmpty && !st.submitting && !isRsvpClosed

/-- The observable outcome of invoking `onSubmitRSVP` up to the point
where it either returns without network traffic or issues the
create-or-update request: the state after the synchronous prefix, and the
payload when a request goes out. -/
inductive SubmitStart
  | noRequest (st : SubmitState)
  | request (st : SubmitState) (payload : Payload)
deriving DecidableEq

/-- Shallow embedding of the synchronous prefix of `onSubmitRSVP`
(lines 442-456): it first clears `submitOk` and `submitErr`, then returns
if `canSubmit` is false, else sets `submitting` and issues the request
with `buildPayload()`. -/
def onSubmitStart (isRsvpClosed : Bool) (st : SubmitState) : SubmitStart :=
  let cleared : SubmitState := { st with submitOk := "", submitErr := "" }
  if canSubmit st isRsvpClosed then
    SubmitStart.request { cleared with submitting := true } (buildPayload st.form)
  else SubmitStart.noRequest cleared

/-- Counterexample to claim C6: with the submit gate false (here the
empty `name` makes `fieldErrors` non-empty) and a success message still
on screen, invoking the handler is not a no-op — it clears the success
message before it checks the gate, so the state changes even though no
request is issued. -/
theorem submit_gate_clears_messages_counterexample :
    canSubmit
        { form := initialForm, submitting := false,
          submitOk := "RSVP submitted! ðŸŽ‰", submitErr := "" } false = false ∧
    onSubmitStart false
        { form := initialForm, submitting := false,
          submitOk := "RSVP submitted! ðŸŽ‰", submitErr := "" } =
      SubmitStart.noRequest
        { form := initialForm, submitting := false,
          submitOk := "", submitErr := "" } ∧
    ({ form := initialForm, submitting := false,
       submitOk := "", submitErr := "" } : SubmitState) ≠
      { form := initialForm, submitting := false,
        submitOk := "RSVP submitted! ðŸŽ‰", submitErr := "" } := by
  decide

/-- Claim C6 as amended: whenever the submit gate is false, the handler
issues no network request and changes no state other than clearing the
success and error message fields (which it clears before checking the
gate); in particular the form and the `submitting` flag are untouched. -/
theorem submit_gate_noop_amended (isRsvpClosed : Bool) (st : SubmitState) :
    canSubmit st isRsvpClosed = false →
    onSubmitStart isRsvpClosed st =
      SubmitStart.noRequest { st with submitOk := "", submitErr := "" } := by
  intro h
  unfold onSubmitStart
  rw [h]
  rfl

/-- Witness for the amended C6 at a concrete closed-deadline state. -/
theorem submit_gate_noop_amended_witness :
    onSubmitStart true
        { form := initialForm, submitting := false,
          submitOk := "", submitErr := "old error" } =
      SubmitStart.noRequest
        { form := initialForm, submitting := false,
          submitOk := "", submitErr := "" } :=
  submit_gate_noop_amended true
    { form := initialForm, submitting := false,
      submitOk := "", submitErr := "old error" } (by decide)

/-- The update-phrased success message of `onSubmitRSVP` (line 471),
byte-for-byte as the source file has it. -/
def submitUpdatedMsg : String := "RSVP updated! âœ…"

/-- The creation-phrased success message of `onSubmitRSVP` (line 471),
byte-for-byte as the source file has it. -/
def submitCreatedMsg : String := "RSVP submitted! ðŸŽ‰"

/-- Shallow embedding of the 2xx continuation of `onSubmitRSVP`
(lines 470-488): read `data?.mode`, set the success message, reset every
form field to its default except `session_id`, and finally clear
`submitting`. -/
def onSubmitSuccess (mode : Option String) (st : SubmitState) : SubmitState :=
  { st with
    submitting := false
    submitOk := if mode = some "updated" then submitUpdatedMsg else submitCreatedMsg
    form := { st.form with
      attendance_status := "attending", name := "", email := "", phone := ""
      remarks := "", invite_code := "", allow_public_share := false } }

/-- Claim C7: on a 2xx submit response the success message is the
update-phrased one exactly when the response's `mode` is `"updated"` and
the creation-phrased one for any other `mode` (including `"created"` and
absent); the two messages differ; and every form field is reset to its
default while `session_id` keeps its current value. -/
theorem submit_success_spec (mode : Option String) (st : SubmitState) :
    (onSubmitSuccess mode st).submitOk =
      (if mode = some "updated" then submitUpdatedMsg else submitCreatedMsg) ∧
    submitUpdatedMsg ≠ submitCreatedMsg ∧
    (onSubmitSuccess mode st).form.session_id = st.form.session_id ∧
    (onSubmitSuccess mode st).form.attendance_status = "attending" ∧
    (onSubmitSuccess mode st).form.name = "" ∧
    (onSubmitSuccess mode st).form.email = "" ∧
    (onSubmitSuccess mode st).form.phone = "" ∧
    (onSubmitSuccess mode st).form.remarks = "" ∧
    (onSubmitSuccess mode st).form.invite_code = "" ∧
    (onSubmitSuccess mode st).form.allow_public_share = false ∧
    (onSubmitSuccess mode st).submitting = false := by
  refine ⟨rfl, by decide, rfl, rfl, rfl, rfl, rfl, rfl, rfl, rfl, rfl⟩

/-- JavaScript `a || b` on strings: `a` unless it is falsy (empty). -/
def jsOrStr (a b : String) : String := if a = "" then b else a

/-- The `data` object of a successful lookup response (§6 of the spec):
each field optional (`none` models both a missing key and `null`, the
cases `??` treats alike; for `attendance_status` the falsy `""` behaves
like an absent value under `||` and is modelled by `some ""`).
`session_id` is the numeric id the server stores. -/
structure RsvpRecord where
  attendance_status : Option String := none
  name : Option String := none
  email : Option String := none
  phone : Option String := none
  remarks : Option String := none
  invite_code : Option String := none
  session_id : Option Int := none
deriving DecidableEq

/-- Shallow embedding of the `setForm` merge of `onLookupRsvp` on a
`found=true` response (lines 524-534): `attendance_status` via
`d.attendance_status || prev.attendance_status || "attending"`, the text
fields via `??` with their respective defaults, `session_id` via
`d.session_id ? String(d.session_id) : ""`, and everything else (only
`allow_public_share`) kept from the previous state. -/
def applyLookupRecord (d : RsvpRecord) (prev : FormState) : FormState :=
  { prev with
    attendance_status :=
      jsOrStr (d.attendance_status.getD "") (jsOrStr prev.attendance_status "attending")
    name := d.name.getD ""
    email := d.email.getD ""
    phone := d.phone.getD ""
    remarks := d.remarks.getD ""
    invite_code := d.invite_code.getD prev.invite_code
    session_id :=
      match d.session_id with
      | some n => if n ≠ 0 then toString n else ""
      | none => "" }

/-- Counterexample to claim C10 at one concrete input: a record whose
`attendance_status` is absent and whose `session_id` is the (present)
number `0`, applied to a form whose previous `attendance_status` is the
empty string.  `d.session_id ? String(d.session_id) : ""` treats the
falsy `0` like an absent id, so `session_id` becomes `""` rather than
`"0"`; and `|| "attending"` replaces the empty previous value instead of
keeping it. -/
theorem lookup_merge_counterexample :
    applyLookupRecord { session_id := some 0 }
        { attendance_status := "", name := "x", email := "", phone := "",
          session_id := "9", remarks := "", invite_code := "code",
          allow_public_share := true } =
      { attendance_status := "attending", name := "", email := "", phone := "",
        session_id := "", remarks := "", invite_code := "code",
        allow_public_share := true } ∧
    toString (0 : Int) = "0" ∧
    ("" : String) ≠ "0" ∧ ("attending" : String) ≠ "" := by
  decide

/-- Claim C10 as amended: applying a found record never changes
`allow_public_share`; `name`/`email`/`phone`/`remarks` default to `""`
when absent; `invite_code` falls back to the previous form value when
absent; `attendance_status` falls back to the previous form value when
absent or empty in the response (or to `"attending"` when the previous
value is itself empty); and `session_id` becomes the record's id as a
string when the id is present and nonzero, and `""` when it is absent or
the falsy `0`. -/
theorem lookup_merge_amended (d : RsvpRecord) (prev : FormState) :
    (applyLookupRecord d prev).allow_public_share = prev.allow_public_share ∧
    (applyLookupRecord d prev).name = d.name.getD "" ∧
    (applyLookupRecord d prev).email = d.email.getD "" ∧
    (applyLookupRecord d prev).phone = d.phone.getD "" ∧
    (applyLookupRecord d prev).remarks = d.remarks.getD "" ∧
    (applyLookupRecord d prev).invite_code = d.invite_code.getD prev.invite_code ∧
    ((d.attendance_status = none ∨ d.attendance_status = some "") →
      prev.attendance_status ≠ "" →
      (applyLookupRecord d prev).attendance_status = prev.attendance_status) ∧
    ((d.attendance_status = none ∨ d.attendance_status = some "") →
      prev.attendance_status = "" →
      (applyLookupRecord d prev).attendance_status = "attending") ∧
    (∀ n : Int, d.session_id = some n → n ≠ 0 →
      (applyLookupRecord d prev).session_id = toString n) ∧
    ((d.session_id = none ∨ d.session_id = some 0) →
      (applyLookupRecord d prev).session_id = "") := by
  refine ⟨rfl, rfl, rfl, rfl, rfl, rfl, ?_, ?_, ?_, ?_⟩
  · rintro (h | h) hp <;>
      simp [applyLookupRecord, h, jsOrStr, hp]
  · rintro (h | h) hp <;>
      simp [applyLookupRecord, h, jsOrStr, hp]
  · intro n hn hnz
    simp [applyLookupRecord, hn, hnz]
  · rintro (h | h) <;> simp [applyLookupRecord, h]

/-- Witness for the amended C10: a declined record with no session and no
invite code applied to a filled-in form keeps `allow_public_share` and
the previous invite code and clears `session_id`. -/
theorem lookup_merge_amended_witness :
    (applyLookupRecord
        { attendance_status := some "declined" }
        { attendance_status := "attending", name := "a", email := "", phone := "",
          session_id := "3", remarks := "", invite_code := "k",
          allow_public_share := false }).session_id = "" :=
  (lookup_merge_amended { attendance_status := some "declined" }
      { attendance_status := "attending", name := "a", email := "", phone := "",
        session_id := "3", remarks := "", invite_code := "k",
        allow_public_share := false }).2.2.2.2.2.2.2.2.2 (Or.inl rfl)

/-- The form together with the dependency memory of the declined-clears-
session effect (lines 167-172): React re-runs an effect whose dependency
array is `[form.attendance_status]` only when that string differs from
the one of the previous render, so the state carries the last value the
effect saw. -/
structure PageState where
  form : FormState
  lastAttendance : String
deriving DecidableEq

/-- The form-state updates `EventPage` can perform: one controlled input
changing through `onFormChange` (lines 412-419), a `found=true` lookup
merge (lines 524-534), the post-success reset (lines 473-483), and the
event-load default seeding `session_id` with the first session's id when
sessions exist (lines 148-154). -/
inductive FormEvent
  | setAttendance (v : String)
  | setName (v : String)
  | setEmail (v : String)
  | setPhone (v : String)
  | setSessionId (v : String)
  | setRemarks (v : String)
  | setInviteCode (v : String)
  | setAllowShare (v : Bool)
  | lookupLoaded (d : RsvpRecord)
  | submitSucceeded
  | eventLoaded (firstSessionId : Option Int)
deriving DecidableEq

/-- The pure merge each event performs on the form state. -/
def applyFormEvent (f : FormState) : FormEvent → FormState
  | FormEvent.setAttendance v => { f with attendance_status := v }
  | FormEvent.setName v => { f with name := v }
  | FormEvent.setEmail v => { f with email := v }
  | FormEvent.setPhone v => { f with phone := v }
  | FormEvent.setSessionId v => { f with session_id := v }
  | FormEvent.setRemarks v => { f with remarks := v }
  | FormEvent.setInviteCode v => { f with invite_code := v }
  | FormEvent.setAllowShare v => { f with allow_public_share := v }
  | FormEvent.lookupLoaded d => applyLookupRecord d f
  | FormEvent.submitSucceeded =>
    { f with attendance_status := "attending", name := "", email := "", phone := ""
             remarks := "", invite_code := "", allow_public_share := false }
  | FormEvent.eventLoaded (some i) =>
    { f with session_id := jsOrStr f.session_id (toString i) }
  | FormEvent.eventLoaded none => f

/-- The declined-clears-session effect (lines 167-172) with its
dependency array `[form.attendance_status]`: it runs only when the
attendance value changed since the last run, and then clears
`session_id` if the attendance is `"declined"` and a session is set. -/
def runClearEffect (st : PageState) : PageState :=
  if st.form.attendance_status ≠ st.lastAttendance then
    { form :=
        if st.form.attendance_status = "declined" ∧ st.form.session_id ≠ "" then
          { st.form with session_id := "" }
        else st.form
      lastAttendance := st.form.attendance_status }
  else st

/-- One observable step: apply the event's merge, then let the effect
settle. -/
def stepPage (st : PageState) (e : FormEvent) : PageState :=
  runClearEffect { st with form := applyFormEvent st.form e }

/-- The mounted page: the initial form, with the effect having seen the
initial attendance value. -/
def initPage : PageState :=
  { form := initialForm, lastAttendance := "attending" }

/-- The state after a sequence of events from the mounted page. -/
def runPage (es : List FormEvent) : PageState := es.foldl stepPage initPage

/-- Counterexample to claim C8: a reachable form state has
`attendance_status = "declined"` and a non-empty `session_id`.  The user
declines (the effect runs and leaves `session_id` empty), then a lookup
returns a declined record carrying session id `7`: the merge writes both
fields, and since `attendance_status` did not change, the
`[form.attendance_status]` dependency keeps the clearing effect from
re-running. -/
theorem declined_session_reachable_counterexample :
    (runPage [FormEvent.setAttendance "declined",
              FormEvent.lookupLoaded
                { attendance_status := some "declined", session_id := some 7 }]).form.attendance_status =
      "declined" ∧
    (runPage [FormEvent.setAttendance "declined",
              FormEvent.lookupLoaded
                { attendance_status := some "declined", session_id := some 7 }]).form.session_id =
      "7" ∧
    ("7" : String) ≠ "" := by
  decide

/-- Claim C8 as amended: a declined payload never carries a `session_id`
key and carries `allow_public_share` exactly in the declined case, and
the form clears `session_id` whenever `attendance_status` changes to
`"declined"`; but a state with attendance declined and a non-empty
`session_id` is reachable (a lookup that applies a declined record with a
session while already declined), though its session is still never sent. -/
theorem declined_invariant_amended :
    (∀ form : FormState, form.attendance_status = "declined" →
      (buildPayload form).session_id = none) ∧
    (∀ form : FormState,
      ((buildPayload form).allow_public_share ≠ none ↔
        form.attendance_status = "declined")) ∧
    (∀ (st : PageState) (e : FormEvent),
      (stepPage st e).form.attendance_status = "declined" →
      (stepPage st e).form.attendance_status ≠ st.lastAttendance →
      (stepPage st e).form.session_id = "") := by
  refine ⟨?_, ?_, ?_⟩
  · intro form h
    unfold buildPayload
    split_ifs <;> simp_all
  · intro form
    unfold buildPayload
    split_ifs <;> simp_all
  · intro st e hdecl hchanged
    unfold stepPage runClearEffect at hdecl hchanged ⊢
    by_cases hrun : (applyFormEvent st.form e).attendance_status = st.lastAttendance
    · simp only [ne_eq, hrun, not_true_eq_false, if_false] at hdecl hchanged ⊢
    · simp only [ne_eq, hrun, not_false_eq_true, if_true] at hdecl hchanged ⊢
      by_cases hsess : (applyFormEvent st.form e).attendance_status = "declined" ∧
          (applyFormEvent st.form e).session_id ≠ ""
      · rw [if_pos hsess]
      · rw [if_neg hsess] at hdecl ⊢
        rcases Decidable.not_and_iff_or_not.mp hsess with h | h
        · exact absurd hdecl h
        · exact Decidable.not_not.mp h

/-- Witness for the amended C8: a concrete declined form's payload has no
`session_id` key even though the form still holds one. -/
theorem declined_invariant_amended_witness :
    (buildPayload
        { attendance_status := "declined", name := "a", email := "", phone := "",
          session_id := "7", remarks := "", invite_code := "",
          allow_public_share := true }).session_id = none :=
  declined_invariant_amended.1
    { attendance_status := "declined", name := "a", email := "", phone := "",
      session_id := "7", remarks := "", invite_code := "",
      allow_public_share := true } rfl

/-- How one run of the event-load effect (lines 129-165) can end, as an
outcome of its awaited steps.  `aborted` covers every point at which the
`AbortController` cancels the in-flight work — the slug changed or the
view was torn down while `fetch` or `res.json()` was pending — making the
pending await reject with an exception named `AbortError`.  `failed`
covers any other thrown error (its `String(e.message || e)` rendering). -/
inductive LoadOutcome
  | success (sessionIds : List Int)
  | notFound
  | httpError (status : Nat)
  | aborted
  | failed (msg : String)
deriving DecidableEq

/-- Which state updates the load effect performs after its first await —
i.e. everything a stale or failed run could still do to the page.
`errSet` is the argument of a `setErr` call (`none` = not called),
`eventSet` whether `setEvent(data)` ran with fetched data,
`sessionDefaulted` whether the `setForm` seeding `session_id` ran, and
`loadingCleared` whether the `finally` block's `setLoading(false)` ran
(it is guarded by `!controller.signal.aborted`). -/
structure LoadFinish where
  errSet : Option String
  eventSet : Bool
  sessionDefaulted : Bool
  loadingCleared : Bool
deriving DecidableEq

/-- Shallow embedding of the tail of the load effect per outcome:
a 404 returns quietly (no error, no event), a non-2xx throws
`` `API error ${res.status}` `` which the catch stores, an abort returns
from the catch without touching state and skips the guarded `finally`
update, and a success stores the event and seeds the default session when
the event has sessions. -/
def finishLoad : LoadOutcome → LoadFinish
  | LoadOutcome.success ids =>
    { errSet := none, eventSet := true,
      sessionDefaulted := decide (ids.length > 0), loadingCleared := true }
  | LoadOutcome.notFound =>
    { errSet := none, eventSet := false, sessionDefaulted := false,
      loadingCleared := true }
  | LoadOutcome.httpError status =>
    { errSet := some ("API error " ++ toString status), eventSet := false,
      sessionDefaulted := false, loadingCleared := true }
  | LoadOutcome.aborted =>
    { errSet := none, eventSet := false, sessionDefaulted := false,
      loadingCleared := false }
  | LoadOutcome.failed msg =>
    { errSet := some msg, eventSet := false, sessionDefaulted := false,
      loadingCleared := true }

/-- A genuine non-abort failure of the load: a non-2xx, non-404 response
or a thrown non-abort error. -/
def isRealLoadFailure : LoadOutcome → Bool
  | LoadOutcome.httpError _ => true
  | LoadOutcome.failed _ => true
  | _ => false

/-- Claim C9: an aborted event load sets no error, stores no event data,
touches no form state and does not even clear the loading flag — the
stale run updates nothing for the old slug — and the error state is set
exactly on a genuine non-abort failure. -/
theorem load_abort_spec :
    finishLoad LoadOutcome.aborted =
      { errSet := none, eventSet := false, sessionDefaulted := false,
        loadingCleared := false } ∧
    (∀ o : LoadOutcome, (finishLoad o).errSet.isSome = isRealLoadFailure o) := by
  refine ⟨rfl, ?_⟩
  intro o
  cases o <;> rfl

end EventsFrontend
